import Mathlib

/-!
Shallow embedding of the DAPLink CMSIS-DAP packet pipeline and locks:
  src/source/daplink/interface/swd_lock.c        (port lock)
  src/source/daplink/cmsis-dap/usbd_user_hid.c   (packet ring + dispatcher)

C strings are modelled as `List Char` without the terminating NUL, so the
empty list corresponds to `s[0] == 0`.  Machine counters are `Nat` with
explicit `% COUNT` where the C code wraps.  `SWD_OWNER_NAME_LENGTH` and
`DAP_PACKET_COUNT` come from headers that are not part of the sources, so
they stay parameters `N` and `COUNT` of every definition.
-/

namespace DAPLink

abbrev CStr := List Char

/-! ### Port lock: src/source/daplink/interface/swd_lock.c

The lock state is the static buffer `swd_owner`; `[]` models an empty
(NUL-led) buffer, i.e. the unheld port.  `strncmp(a, b, N) == 0` on
NUL-terminated strings is `a.take N = b.take N`: the comparison stops at
the first difference, and a string ending before the other within the
first `N` bytes puts a NUL against a non-NUL byte. -/

/-- Result of a port-lock call: the C return value, whether `util_assert(0)`
was hit (per the spec a fault is raised: reported, execution continues and the
failure code is returned), and the `swd_owner` buffer afterwards. -/
structure SwdResult where
  ret : Nat
  faultRaised : Bool
  state : CStr
deriving DecidableEq

/-- `swd_is_locked`: returns `swd_owner[0]==0 ? 0 : 1`. -/
def swd_is_locked (st : CStr) : Nat :=
  if st = [] then 0 else 1

/-- `swd_is_locked_owner` (also called as `swd_is_locked_by_owner`):
returns 1 if `!strncmp(swd_owner, owner, sizeof(swd_owner)) || swd_owner[0]==0`,
else 0. -/
def swd_is_locked_owner (N : Nat) (st owner : CStr) : Nat :=
  if st.take N = owner.take N ∨ st = [] then 1 else 0

/-- `swd_unlock`: `swd_owner[0] = 0; return 1;`. -/
def swd_unlock (_st : CStr) : Nat × CStr :=
  ((1 : Nat), ([] : CStr))

/-- `swd_lock_owner`.  The source is missing the `{` after
`if (!swd_is_locked())` that its closing brace requires; the embedding
reads the whole acquire block as the body of that `if`, the only brace-balanced
parse of the function.  The mutex init/wait/release calls are concurrency
no-ops in this sequential model; `memcpy(swd_owner, owner, sizeof(swd_owner))`
stores the first `N` characters of `owner`. -/
def swd_lock_owner (N : Nat) (st owner : CStr) : SwdResult :=
  if swd_is_locked_owner N st owner = 1 then
    { ret := 1, faultRaised := false, state := st }
  else if swd_is_locked st = 0 then
    { ret := 1, faultRaised := false, state := owner.take N }
  else
    { ret := 0, faultRaised := true, state := st }

/-- `swd_unlock_owner`: only a matching owner clears the buffer, otherwise
`util_assert(0)` and failure. -/
def swd_unlock_owner (N : Nat) (st owner : CStr) : SwdResult :=
  if st.take N = owner.take N then
    { ret := 1, faultRaised := false, state := (swd_unlock st).2 }
  else
    { ret := 0, faultRaised := true, state := st }

/-! ### Packet ring and dispatcher: src/source/daplink/cmsis-dap/usbd_user_hid.c

A packet is a byte list; `USB_Request` is the `COUNT`-slot ring.  The three
counting semaphores `free_sem`, `proc_sem`, `send_sem` are `Nat` counters
(`os_sem_wait(sem, 0)` succeeds iff the count is positive and decrements it;
`os_sem_send` increments).  `hid_mutex` guards the send side against
interrupt preemption and is a no-op in this sequential interleaving model.
Command-identifier byte values come from the CMSIS-DAP header `DAP.h`,
which is not in the sources; only their distinctness matters below. -/

abbrev Packet := List Nat

def ID_DAP_Info : Nat := 0
def ID_DAP_Connect : Nat := 2
def ID_DAP_Disconnect : Nat := 3
def ID_DAP_TransferAbort : Nat := 7

def DAP_LOCK_OPERATION_HID_DEBUG : Nat := 0

/-- Modelled from the spec: the Session Lock (`dap_lock_operation` lives
outside these sources).  `try_acquire(identity)` succeeds if unheld or
already held by `identity`; otherwise it fails with the state unchanged. -/
def dap_lock_operation (i : Nat) (lock : Option Nat) : Bool × Option Nat :=
  match lock with
  | none => (true, some i)
  | some h => if h = i then (true, some h) else (false, some h)

/-- Modelled from the spec: Session Lock `verify(identity)` is true iff the
lock is held by exactly that identity. -/
def dap_lock_verify_operation (i : Nat) (lock : Option Nat) : Bool :=
  lock = some i

/-- Modelled from the spec: Session Lock `release()` is the unconditional
transition to unheld. -/
def dap_unlock_operation (_i : Nat) (_lock : Option Nat) : Option Nat :=
  none

/-- The mutable file-scope state of `usbd_user_hid.c`, plus the Session
Lock state the dispatcher drives and the `DAP_TransferAbort` flag. -/
structure HidState where
  usbRequest : List Packet
  recvIdx : Nat
  procIdx : Nat
  sendIdx : Nat
  responseIdle : Bool
  freeSem : Nat
  procSem : Nat
  sendSem : Nat
  dapTransferAbort : Bool
  dapLock : Option Nat
deriving DecidableEq

/-- `usbd_hid_init`: resets cursors, sets the idle flag, reinitialises the
semaphores to `(COUNT, 0, 0)`.  Slot contents, abort flag and Session Lock
are untouched. -/
def usbd_hid_init (COUNT : Nat) (s : HidState) : HidState :=
  { s with recvIdx := 0, procIdx := 0, sendIdx := 0, responseIdle := true,
           freeSem := COUNT, procSem := 0, sendSem := 0 }

/-- First byte (the command identifier) of the slot under the process
cursor. -/
def cmdAt (s : HidState) : Nat :=
  (s.usbRequest.getD s.procIdx []).getD 0 0

/-- The report-type switch argument of the two USB callbacks (values come
from the USB headers, so an enumeration stands in for them). -/
inductive ReportType
  | input
  | output
  | feature
deriving DecidableEq

/-- The `req` switch argument of `usbd_hid_get_report`. -/
inductive HidReq
  | epCtrl
  | periodUpdate
  | epInt
deriving DecidableEq

structure SetReportResult where
  state : HidState
  overflowAssert : Bool
deriving DecidableEq

/-- `usbd_hid_set_report`: the producer-side enqueue.  On `HID_REPORT_OUTPUT`
with `len > 0`: the abort identifier only sets `DAP_TransferAbort`; otherwise
a free slot is tried (`os_sem_wait(&free_sem, 0)`), and on success `len`
bytes are copied into the `recv` slot, `recv` advances mod `COUNT`, and
`proc_sem` is signalled; with no free slot the packet is dropped and
`util_assert(0)` reports the overflow with no state change. -/
def usbd_hid_set_report (COUNT : Nat) (rtype : ReportType) (buf : Packet)
    (len : Nat) (s : HidState) : SetReportResult :=
  match rtype with
  | .output =>
    if len = 0 then { state := s, overflowAssert := false }
    else if buf.getD 0 0 = ID_DAP_TransferAbort then
      { state := { s with dapTransferAbort := true }, overflowAssert := false }
    else if 0 < s.freeSem then
      let slot := s.usbRequest.getD s.recvIdx []
      { state := { s with
          usbRequest := s.usbRequest.set s.recvIdx (buf.take len ++ slot.drop len),
          recvIdx := (s.recvIdx + 1) % COUNT,
          freeSem := s.freeSem - 1,
          procSem := s.procSem + 1 },
        overflowAssert := false }
    else { state := s, overflowAssert := true }
  | _ => { state := s, overflowAssert := false }

structure GetReportResult where
  state : HidState
  sentPacket : Option Packet
deriving DecidableEq

/-- `usbd_hid_get_report`: the report poll of the transport.  On
`HID_REPORT_INPUT`/`USBD_HID_REQ_EP_INT`, a ready reply (`send_sem > 0`) is
copied out of the `send` slot, `send` advances mod `COUNT` and `free_sem`
is signalled (returning `DAP_PACKET_SIZE` bytes, here `some` packet);
otherwise the idle flag is set and 0 bytes are returned (`none`). -/
def usbd_hid_get_report (COUNT : Nat) (rtype : ReportType) (req : HidReq)
    (s : HidState) : GetReportResult :=
  match rtype, req with
  | .input, .epInt =>
    if 0 < s.sendSem then
      { state := { s with
          sendIdx := (s.sendIdx + 1) % COUNT,
          sendSem := s.sendSem - 1,
          freeSem := s.freeSem + 1 },
        sentPacket := some (s.usbRequest.getD s.sendIdx []) }
    else
      { state := { s with responseIdle := true }, sentPacket := none }
  | _, _ => { state := s, sentPacket := none }

structure SendPacketResult where
  state : HidState
  assertFailed : Bool
  sentPacket : Option Packet
deriving DecidableEq

/-- `hid_send_packet`: the forced send.  `os_sem_wait(&send_sem, 0)` must
succeed — `util_assert(OS_R_OK == ret)` otherwise; modelled from the spec:
protocol misuse is a fatal assertion, so the failing call performs nothing.
On success the `send` slot is handed to the transmit trigger, `send`
advances mod `COUNT` and `free_sem` is signalled. -/
def hid_send_packet (COUNT : Nat) (s : HidState) : SendPacketResult :=
  if 0 < s.sendSem then
    { state := { s with
        sendIdx := (s.sendIdx + 1) % COUNT,
        sendSem := s.sendSem - 1,
        freeSem := s.freeSem + 1 },
      assertFailed := false,
      sentPacket := some (s.usbRequest.getD s.sendIdx []) }
  else
    { state := s, assertFailed := true, sentPacket := none }

structure ProcessResult where
  state : HidState
  handlerInvoked : Bool
  notified : Bool
  blocked : Bool
deriving DecidableEq

/-- The `switch (USB_Request[proc_idx][0])` block of `hid_process`:
decides `run_command` and applies the side effects of the branch.
`ID_DAP_Info` always runs; `ID_DAP_Connect` runs after
`dap_lock_operation` succeeds, and on failure writes byte 1 of the slot to
0, advances `proc` and signals `send_sem`; any other identifier runs only
if `dap_lock_verify_operation` holds. -/
def hid_dispatch (COUNT : Nat) (s1 : HidState) : Bool × HidState :=
  let slot := s1.usbRequest.getD s1.procIdx []
  let cmd := slot.getD 0 0
  if cmd = ID_DAP_Info then (true, s1)
  else if cmd = ID_DAP_Connect then
    let acq := dap_lock_operation DAP_LOCK_OPERATION_HID_DEBUG s1.dapLock
    if acq.1 then (true, { s1 with dapLock := acq.2 })
    else (false, { s1 with
      usbRequest := s1.usbRequest.set s1.procIdx (slot.set 1 0),
      procIdx := (s1.procIdx + 1) % COUNT,
      sendSem := s1.sendSem + 1 })
  else if dap_lock_verify_operation DAP_LOCK_OPERATION_HID_DEBUG s1.dapLock then
    (true, s1)
  else (false, s1)

/-- The `if (run_command)` block of `hid_process`: the slot is executed in
place (`exec` stands for the external `DAP_ExecuteCommand` writing a reply
into `temp_buf`, copied back over the request slot), `proc` advances,
`send_sem` is signalled, and — reading `USB_Request[proc_idx][0]` at the
already-advanced cursor, exactly as the source does — the Session Lock is
released if that byte equals `ID_DAP_Disconnect`. -/
def hid_run_command (COUNT : Nat) (exec : Packet → Packet) (run : Bool)
    (s2 : HidState) : HidState :=
  if run then
    let s2a : HidState := { s2 with
      usbRequest := s2.usbRequest.set s2.procIdx
        (exec (s2.usbRequest.getD s2.procIdx [])),
      procIdx := (s2.procIdx + 1) % COUNT,
      sendSem := s2.sendSem + 1 }
    if (s2a.usbRequest.getD s2a.procIdx []).getD 0 0 = ID_DAP_Disconnect then
      { s2a with dapLock :=
          dap_unlock_operation DAP_LOCK_OPERATION_HID_DEBUG s2a.dapLock }
    else s2a
  else s2

/-- The closing block of the loop body, under `hid_mutex`: a set idle flag
fires `main_hid_send_event()` (the returned Bool) and is cleared. -/
def hid_idle_notify (s3 : HidState) : HidState × Bool :=
  if s3.responseIdle then ({ s3 with responseIdle := false }, true)
  else (s3, false)

/-- One iteration of the `hid_process` worker loop.  If `proc_sem` is 0
the blocking wait would suspend: no step is taken (`blocked`).  Otherwise
the semaphore is consumed and the three blocks of the loop body run in
order: the command switch, the `run_command` execution, and the
idle/notify region. -/
def hid_process_step (COUNT : Nat) (exec : Packet → Packet) (s : HidState) :
    ProcessResult :=
  if s.procSem = 0 then
    { state := s, handlerInvoked := false, notified := false, blocked := true }
  else
    let s1 : HidState := { s with procSem := s.procSem - 1 }
    let rs := hid_dispatch COUNT s1
    let s3 := hid_run_command COUNT exec rs.1 rs.2
    let r4 := hid_idle_notify s3
    { state := r4.1, handlerInvoked := rs.1, notified := r4.2, blocked := false }

/-- Iterating the worker loop. -/
def hid_process_iter (COUNT : Nat) (exec : Packet → Packet) :
    Nat → HidState → HidState
  | 0, s => s
  | n + 1, s => hid_process_iter COUNT exec n (hid_process_step COUNT exec s).state

/-- Whether any of `n` worker iterations invokes the handler. -/
def hid_process_everRan (COUNT : Nat) (exec : Packet → Packet) :
    Nat → HidState → Bool
  | 0, _ => false
  | n + 1, s =>
    (hid_process_step COUNT exec s).handlerInvoked ||
      hid_process_everRan COUNT exec n (hid_process_step COUNT exec s).state

/-- The flow-control sum `free + ready-to-process + ready-to-send`. -/
def semSum (s : HidState) : Nat :=
  s.freeSem + s.procSem + s.sendSem

/-! ### Example states used by the concrete theorems below -/

/-- Two-slot ring with a Disconnect request pending in slot 0, an Info
request in slot 1, and the Session Lock held by the HID identity. -/
def egDisconnectHeld : HidState :=
  { usbRequest := [[3, 9], [0, 0]], recvIdx := 0, procIdx := 0, sendIdx := 0,
    responseIdle := false, freeSem := 1, procSem := 1, sendSem := 0,
    dapTransferAbort := false, dapLock := some DAP_LOCK_OPERATION_HID_DEBUG }

/-- Two-slot ring with a non-Info, non-Connect request (identifier 1)
pending in slot 0 and the Session Lock unheld. -/
def egDiscard : HidState :=
  { usbRequest := [[1, 0], [0, 0]], recvIdx := 1, procIdx := 0, sendIdx := 0,
    responseIdle := false, freeSem := 1, procSem := 1, sendSem := 0,
    dapTransferAbort := false, dapLock := none }

/-- The discard state with the idle flag set. -/
def egDiscardIdle : HidState :=
  { egDiscard with responseIdle := true }

/-- Two-slot ring with a Connect request pending in slot 0 and the Session
Lock held by a foreign identity. -/
def egConnectBusy : HidState :=
  { usbRequest := [[2, 9], [0, 0]], recvIdx := 0, procIdx := 0, sendIdx := 0,
    responseIdle := false, freeSem := 1, procSem := 1, sendSem := 0,
    dapTransferAbort := false, dapLock := some 5 }

/-- The discard-shaped ring with the free counter exhausted. -/
def egFullRing : HidState :=
  { egDiscard with freeSem := 0, procSem := 2 }

/-- The discard-shaped ring with one reply ready to send. -/
def egSendReady : HidState :=
  { egDiscard with sendSem := 1 }


/-! ### Theorems -/

/-- C2: `swd_lock_owner` on an unheld port is claimed to record the caller
as holder; in the code, `swd_is_locked_by_owner` answers 1 for the unheld
port, so the call returns success without ever reaching the acquire block:
the port stays unheld and a lock by a different owner also succeeds. -/
theorem C2_lock_unheld_never_acquires :
    swd_is_locked ([] : CStr) = 0 ∧
    (swd_lock_owner 8 [] ['x']).ret = 1 ∧
    (swd_lock_owner 8 [] ['x']).state = [] ∧
    swd_is_locked (swd_lock_owner 8 [] ['x']).state = 0 ∧
    (swd_lock_owner 8 (swd_lock_owner 8 [] ['x']).state ['y']).ret = 1 := by
  decide

/-- C6: while the port is held by `x`, `lock(y)` for a different
bounded-length owner `y` raises the fault, returns 0, and leaves the
holder `x` untouched. -/
theorem C6_lock_other_owner_fails (N : Nat) (x y : CStr)
    (hxy : x ≠ y) (hx : x.length ≤ N) (hy : y.length ≤ N) (hne : x ≠ []) :
    swd_lock_owner N x y = { ret := 0, faultRaised := true, state := x } := by
  have htake : ¬ x.take N = y.take N := by
    rw [List.take_of_length_le hx, List.take_of_length_le hy]
    exact hxy
  have h1 : swd_is_locked_owner N x y = 0 := by
    unfold swd_is_locked_owner
    rw [if_neg]
    rintro (h | h)
    · exact htake h
    · exact hne h
  have h2 : swd_is_locked x = 1 := by
    unfold swd_is_locked
    rw [if_neg hne]
  unfold swd_lock_owner
  rw [h1, h2]
  simp

/-- Witness for C6 at concrete owners. -/
theorem C6_lock_other_owner_fails_witness :
    swd_lock_owner 8 ['x'] ['y'] =
      { ret := 0, faultRaised := true, state := ['x'] } :=
  C6_lock_other_owner_fails 8 ['x'] ['y'] (by decide) (by decide) (by decide)
    (by decide)

/-- C9: the query `swd_is_locked_owner` answers 1 whenever the port is
unheld, whoever asks; it answers 0 exactly when the port is held and the
holder differs from the queried owner in the first `N` characters. -/
theorem C9_is_locked_owner_unheld (N : Nat) (st o : CStr) :
    (st = [] → swd_is_locked_owner N st o = 1) ∧
    (swd_is_locked_owner N st o = 0 ↔ st ≠ [] ∧ st.take N ≠ o.take N) := by
  constructor
  · intro h
    simp [swd_is_locked_owner, h]
  · unfold swd_is_locked_owner
    split
    · rename_i h
      constructor
      · intro h1
        exact absurd h1 (by decide)
      · intro ⟨hne, hd⟩
        rcases h with h | h
        · exact absurd h hd
        · exact absurd h hne
    · rename_i h
      push_neg at h
      exact ⟨fun _ => ⟨h.2, h.1⟩, fun _ => rfl⟩

/-- Witness for C9: the unheld port reports "locked for you" to anyone, and
a held port denies a different owner. -/
theorem C9_is_locked_owner_unheld_witness :
    swd_is_locked_owner 8 ([] : CStr) ['x'] = 1 ∧
    swd_is_locked_owner 8 ['a'] ['b'] = 0 :=
  ⟨(C9_is_locked_owner_unheld 8 [] ['x']).1 rfl,
   (C9_is_locked_owner_unheld 8 ['a'] ['b']).2.mpr ⟨by decide, by decide⟩⟩

/-- C1: after the worker executes the pending Disconnect while the Session
Lock is held by the HID identity, the lock is claimed released; the code
instead tests `USB_Request[proc_idx][0]` after `proc_idx` has already
advanced, so with a non-Disconnect byte in the next slot the lock stays
held and `verify` stays true. -/
theorem C1_disconnect_does_not_release :
    cmdAt egDisconnectHeld = ID_DAP_Disconnect ∧
    dap_lock_verify_operation DAP_LOCK_OPERATION_HID_DEBUG
      egDisconnectHeld.dapLock = true ∧
    (hid_process_step 2 id egDisconnectHeld).handlerInvoked = true ∧
    (hid_process_step 2 id egDisconnectHeld).state.dapLock =
      some DAP_LOCK_OPERATION_HID_DEBUG ∧
    dap_lock_verify_operation DAP_LOCK_OPERATION_HID_DEBUG
      (hid_process_step 2 id egDisconnectHeld).state.dapLock = true := by
  decide

/-- Counterexample to C3: before the worker step the counters of
`egDiscard` sum to `COUNT = 2`; the silent-discard branch consumes the
ready-to-process credit without incrementing anything, leaving sum 1. -/
theorem C3_invariant_violated_by_discard :
    semSum egDiscard = 2 ∧
    semSum (hid_process_step 2 id egDiscard).state = 1 := by
  decide

/-- The silent-discard branch of the worker in closed form: nothing changes
except that one ready-to-process credit is consumed and the idle flag is
cleared (after firing the notification if it was set). -/
theorem discard_step_eq (COUNT : Nat) (exec : Packet → Packet) (s : HidState)
    (hver : dap_lock_verify_operation DAP_LOCK_OPERATION_HID_DEBUG s.dapLock
      = false)
    (h0 : cmdAt s ≠ ID_DAP_Info) (h2 : cmdAt s ≠ ID_DAP_Connect)
    (hp : 0 < s.procSem) :
    hid_process_step COUNT exec s =
      { state := { s with procSem := s.procSem - 1, responseIdle := false },
        handlerInvoked := false,
        notified := s.responseIdle,
        blocked := false } := by
  unfold hid_process_step hid_dispatch hid_run_command hid_idle_notify
  rw [if_neg (Nat.pos_iff_ne_zero.mp hp)]
  simp only [cmdAt] at h0 h2
  simp only [if_neg h0, if_neg h2, hver, if_neg (by decide : ¬ (false = true))]
  cases hidle : s.responseIdle <;> simp [hidle]

/-- Iterating the worker over a slot the silent-discard branch rejects
changes nothing the fate of the packet depends on: the handler never runs, no
reply credit appears, and slot contents and process cursor stay put. -/
theorem discard_iter_aux (COUNT : Nat) (exec : Packet → Packet) :
    ∀ (n : Nat) (s : HidState),
      dap_lock_verify_operation DAP_LOCK_OPERATION_HID_DEBUG s.dapLock
        = false →
      cmdAt s ≠ ID_DAP_Info → cmdAt s ≠ ID_DAP_Connect →
      hid_process_everRan COUNT exec n s = false ∧
      (hid_process_iter COUNT exec n s).sendSem = s.sendSem ∧
      (hid_process_iter COUNT exec n s).usbRequest = s.usbRequest ∧
      (hid_process_iter COUNT exec n s).procIdx = s.procIdx
  | 0, _, _, _, _ => ⟨rfl, rfl, rfl, rfl⟩
  | n + 1, s, hver, h0, h2 => by
    by_cases hp : s.procSem = 0
    · have hstep : hid_process_step COUNT exec s =
          { state := s, handlerInvoked := false, notified := false,
            blocked := true } := by
        unfold hid_process_step
        rw [if_pos hp]
      have ih := discard_iter_aux COUNT exec n s hver h0 h2
      simpa [hid_process_everRan, hid_process_iter, hstep] using ih
    · have hstep := discard_step_eq COUNT exec s hver h0 h2
        (Nat.pos_of_ne_zero hp)
      have ih := discard_iter_aux COUNT exec n
        { s with procSem := s.procSem - 1, responseIdle := false }
        hver h0 h2
      simpa [hid_process_everRan, hid_process_iter, hstep] using ih

/-- C4: a dequeued packet whose identifier is neither Info nor Connect,
arriving while the Session Lock is not held by the HID identity, is
silently discarded: the handler is not invoked, the process cursor does
not advance, ready-to-send is not incremented, the slots are untouched —
and however many further worker iterations run, the handler never runs
and no reply credit ever appears. -/
theorem C4_silent_discard (COUNT : Nat) (exec : Packet → Packet)
    (s : HidState) (hp : 0 < s.procSem)
    (hver : dap_lock_verify_operation DAP_LOCK_OPERATION_HID_DEBUG s.dapLock
      = false)
    (h0 : cmdAt s ≠ ID_DAP_Info) (h2 : cmdAt s ≠ ID_DAP_Connect) :
    (hid_process_step COUNT exec s).handlerInvoked = false ∧
    (hid_process_step COUNT exec s).state.procIdx = s.procIdx ∧
    (hid_process_step COUNT exec s).state.sendSem = s.sendSem ∧
    (hid_process_step COUNT exec s).state.usbRequest = s.usbRequest ∧
    ∀ n : Nat, hid_process_everRan COUNT exec n s = false ∧
      (hid_process_iter COUNT exec n s).sendSem = s.sendSem := by
  have hstep := discard_step_eq COUNT exec s hver h0 h2 hp
  refine ⟨by rw [hstep], by rw [hstep], by rw [hstep], by rw [hstep],
    fun n => ?_⟩
  have h := discard_iter_aux COUNT exec n s hver h0 h2
  exact ⟨h.1, h.2.1⟩

/-- Witness for C4 on the concrete discard state, iterated five times. -/
theorem C4_silent_discard_witness :
    (hid_process_step 2 id egDiscard).handlerInvoked = false ∧
    hid_process_everRan 2 id 5 egDiscard = false :=
  ⟨(C4_silent_discard 2 id egDiscard (by decide) (by decide) (by decide)
      (by decide)).1,
   ((C4_silent_discard 2 id egDiscard (by decide) (by decide) (by decide)
      (by decide)).2.2.2.2 5).1⟩

/-- C10: the idle/notify block runs after every dequeued packet, including
a silently discarded one: with the idle flag set, the begin-send
notification fires and the flag clears even though ready-to-send stayed 0,
and the subsequent forced send trips the fatal assertion. -/
theorem C10_notification_fires_on_discard (COUNT : Nat)
    (exec : Packet → Packet) (s : HidState) (hp : 0 < s.procSem)
    (hidle : s.responseIdle = true)
    (hver : dap_lock_verify_operation DAP_LOCK_OPERATION_HID_DEBUG s.dapLock
      = false)
    (h0 : cmdAt s ≠ ID_DAP_Info) (h2 : cmdAt s ≠ ID_DAP_Connect) :
    (hid_process_step COUNT exec s).notified = true ∧
    (hid_process_step COUNT exec s).handlerInvoked = false ∧
    (hid_process_step COUNT exec s).state.responseIdle = false ∧
    (hid_process_step COUNT exec s).state.sendSem = s.sendSem ∧
    (s.sendSem = 0 →
      (hid_send_packet COUNT
        (hid_process_step COUNT exec s).state).assertFailed = true) := by
  have hstep := discard_step_eq COUNT exec s hver h0 h2 hp
  rw [hstep]
  refine ⟨hidle, rfl, rfl, rfl, fun hs => ?_⟩
  unfold hid_send_packet
  rw [if_neg]
  simp [hs]

/-- Witness for C10 on the concrete idle discard state. -/
theorem C10_notification_fires_on_discard_witness :
    (hid_process_step 2 id egDiscardIdle).notified = true ∧
    (hid_send_packet 2
      (hid_process_step 2 id egDiscardIdle).state).assertFailed = true :=
  ⟨(C10_notification_fires_on_discard 2 id egDiscardIdle (by decide) rfl
      (by decide) (by decide) (by decide)).1,
   (C10_notification_fires_on_discard 2 id egDiscardIdle (by decide) rfl
      (by decide) (by decide) (by decide)).2.2.2.2 rfl⟩

/-- C5: a dequeued Connect packet finding the Session Lock held by a
different identity does not reach the handler; instead byte 1 of its slot
(the first payload byte) is zeroed as the failure code, the process
cursor advances, a reply credit is signalled, and the lock is untouched. -/
theorem C5_connect_lock_busy (COUNT : Nat) (exec : Packet → Packet)
    (s : HidState) (k : Nat) (hp : 0 < s.procSem)
    (hc : cmdAt s = ID_DAP_Connect) (hl : s.dapLock = some k)
    (hk : k ≠ DAP_LOCK_OPERATION_HID_DEBUG) :
    (hid_process_step COUNT exec s).handlerInvoked = false ∧
    (hid_process_step COUNT exec s).state.usbRequest =
      s.usbRequest.set s.procIdx ((s.usbRequest.getD s.procIdx []).set 1 0) ∧
    (hid_process_step COUNT exec s).state.procIdx = (s.procIdx + 1) % COUNT ∧
    (hid_process_step COUNT exec s).state.sendSem = s.sendSem + 1 ∧
    (hid_process_step COUNT exec s).state.dapLock = s.dapLock := by
  unfold hid_process_step hid_dispatch hid_run_command hid_idle_notify
  rw [if_neg (Nat.pos_iff_ne_zero.mp hp)]
  simp only [cmdAt] at hc
  have h0 : ¬ List.getD (s.usbRequest.getD s.procIdx []) 0 0 = ID_DAP_Info := by
    rw [hc]
    decide
  simp only [hl, dap_lock_operation, if_neg h0, if_pos hc, if_neg hk]
  cases hidle : s.responseIdle <;> simp [hidle]

/-- Witness for C5 on the concrete busy-Connect state. -/
theorem C5_connect_lock_busy_witness :
    (hid_process_step 2 id egConnectBusy).handlerInvoked = false ∧
    (hid_process_step 2 id egConnectBusy).state.usbRequest =
      [[2, 0], [0, 0]] ∧
    (hid_process_step 2 id egConnectBusy).state.sendSem = 1 :=
  ⟨(C5_connect_lock_busy 2 id egConnectBusy 5 (by decide) rfl rfl
      (by decide)).1,
   by
    rw [(C5_connect_lock_busy 2 id egConnectBusy 5 (by decide) rfl rfl
      (by decide)).2.1]
    decide,
   (C5_connect_lock_busy 2 id egConnectBusy 5 (by decide) rfl rfl
      (by decide)).2.2.2.1⟩

/-- C7: an enqueue of a non-abort packet with no free slot drops the
packet, reports the overflow, and leaves the whole state intact, so a
later successful enqueue behaves exactly as if the dropped packet had
never arrived. -/
theorem C7_overflow_drop (COUNT : Nat) (buf buf2 : Packet) (len len2 : Nat)
    (s : HidState) (hfree : s.freeSem = 0) (hlen : 0 < len)
    (habort : buf.getD 0 0 ≠ ID_DAP_TransferAbort) :
    (usbd_hid_set_report COUNT .output buf len s).state = s ∧
    (usbd_hid_set_report COUNT .output buf len s).overflowAssert = true ∧
    usbd_hid_set_report COUNT .output buf2 len2
        (usbd_hid_set_report COUNT .output buf len s).state =
      usbd_hid_set_report COUNT .output buf2 len2 s := by
  have hdrop : usbd_hid_set_report COUNT .output buf len s =
      { state := s, overflowAssert := true } := by
    unfold usbd_hid_set_report
    rw [if_neg (Nat.pos_iff_ne_zero.mp hlen), if_neg habort,
      if_neg (by simp [hfree])]
  rw [hdrop]
  exact ⟨rfl, rfl, rfl⟩

/-- Witness for C7 on a full ring. -/
theorem C7_overflow_drop_witness :
    (usbd_hid_set_report 2 .output [1, 1] 2 egFullRing).state = egFullRing ∧
    (usbd_hid_set_report 2 .output [1, 1] 2 egFullRing).overflowAssert
      = true :=
  ⟨(C7_overflow_drop 2 [1, 1] [4] 2 1 egFullRing rfl (by decide)
      (by decide)).1,
   (C7_overflow_drop 2 [1, 1] [4] 2 1 egFullRing rfl (by decide)
      (by decide)).2.1⟩

/-- C8: calling the forced send with no ready reply trips the fatal
assertion and performs nothing; with a reply ready it consumes one
ready-to-send credit, transmits the slot under the send cursor, advances
the cursor and frees a slot — the very state transition of the
dequeue path of the report poll. -/
theorem C8_force_send_discipline (COUNT : Nat) (s : HidState) :
    (s.sendSem = 0 →
      (hid_send_packet COUNT s).assertFailed = true ∧
      (hid_send_packet COUNT s).state = s ∧
      (hid_send_packet COUNT s).sentPacket = none) ∧
    (0 < s.sendSem →
      (hid_send_packet COUNT s).assertFailed = false ∧
      (hid_send_packet COUNT s).state.sendSem = s.sendSem - 1 ∧
      (hid_send_packet COUNT s).state.sendIdx = (s.sendIdx + 1) % COUNT ∧
      (hid_send_packet COUNT s).state.freeSem = s.freeSem + 1 ∧
      (hid_send_packet COUNT s).sentPacket =
        some (s.usbRequest.getD s.sendIdx []) ∧
      (hid_send_packet COUNT s).state =
        (usbd_hid_get_report COUNT .input .epInt s).state) := by
  constructor
  · intro hs
    unfold hid_send_packet
    rw [if_neg (by simp [hs])]
    exact ⟨rfl, rfl, rfl⟩
  · intro hs
    unfold hid_send_packet usbd_hid_get_report
    rw [if_pos hs, if_pos hs]
    exact ⟨rfl, rfl, rfl, rfl, rfl, rfl⟩

/-- Witness for C8: the empty side trips the assertion, the ready side
performs the dequeue-for-send transition. -/
theorem C8_force_send_discipline_witness :
    (hid_send_packet 2 egDiscard).assertFailed = true ∧
    (hid_send_packet 2 egSendReady).assertFailed = false ∧
    (hid_send_packet 2 egSendReady).state =
      (usbd_hid_get_report 2 .input .epInt egSendReady).state :=
  ⟨((C8_force_send_discipline 2 egDiscard).1 rfl).1,
   ((C8_force_send_discipline 2 egSendReady).2 (by decide)).1,
   ((C8_force_send_discipline 2 egSendReady).2 (by decide)).2.2.2.2.2⟩

/-- The dispatch switch refuses to run exactly on a failed Connect
acquire or an unverified non-Info, non-Connect command. -/
theorem hid_dispatch_false_iff (COUNT : Nat) (s1 : HidState) :
    (hid_dispatch COUNT s1).1 = false ↔
      (cmdAt s1 ≠ ID_DAP_Info ∧
       ((cmdAt s1 = ID_DAP_Connect ∧
          (dap_lock_operation DAP_LOCK_OPERATION_HID_DEBUG s1.dapLock).1
            = false) ∨
        (cmdAt s1 ≠ ID_DAP_Connect ∧
          dap_lock_verify_operation DAP_LOCK_OPERATION_HID_DEBUG s1.dapLock
            = false))) := by
  by_cases c0 : cmdAt s1 = ID_DAP_Info
  · simp [cmdAt] at c0
    unfold hid_dispatch
    simp [cmdAt, c0, ID_DAP_Info, ID_DAP_Connect]
  · by_cases c2 : cmdAt s1 = ID_DAP_Connect
    · by_cases ha : (dap_lock_operation DAP_LOCK_OPERATION_HID_DEBUG
          s1.dapLock).1 = true
      · simp [cmdAt] at c0 c2
        unfold hid_dispatch
        simp [cmdAt, c0, c2, ha, ID_DAP_Info, ID_DAP_Connect]
      · simp [cmdAt] at c0 c2
        unfold hid_dispatch
        simp [cmdAt, c0, c2, ha, ID_DAP_Info, ID_DAP_Connect]
    · by_cases hv : dap_lock_verify_operation DAP_LOCK_OPERATION_HID_DEBUG
          s1.dapLock = true
      · simp [cmdAt] at c0 c2
        unfold hid_dispatch
        simp [cmdAt, c0, c2, hv]
      · simp [cmdAt] at c0 c2
        unfold hid_dispatch
        simp [cmdAt, c0, c2, hv]

/-- A Session Lock that verifies for an identity also reacquires for it. -/
theorem dap_lock_operation_of_verify (i : Nat) (lock : Option Nat)
    (h : dap_lock_verify_operation i lock = true) :
    (dap_lock_operation i lock).1 = true := by
  unfold dap_lock_verify_operation at h
  unfold dap_lock_operation
  cases lock <;> simp_all

/-- The dispatch switch adds one ready-to-send credit exactly on the
Connect-failure branch and otherwise keeps the counters. -/
theorem hid_dispatch_semSum (COUNT : Nat) (s1 : HidState) :
    semSum (hid_dispatch COUNT s1).2 =
      (if (hid_dispatch COUNT s1).1 = false ∧ cmdAt s1 = ID_DAP_Connect
        then semSum s1 + 1 else semSum s1) := by
  by_cases c0 : cmdAt s1 = ID_DAP_Info
  · simp [cmdAt] at c0
    unfold hid_dispatch
    simp [cmdAt, c0, ID_DAP_Info, ID_DAP_Connect]
  · by_cases c2 : cmdAt s1 = ID_DAP_Connect
    · by_cases ha : (dap_lock_operation DAP_LOCK_OPERATION_HID_DEBUG
          s1.dapLock).1 = true
      · simp [cmdAt] at c0 c2
        unfold hid_dispatch
        simp [cmdAt, c0, c2, ha, ID_DAP_Info, ID_DAP_Connect, semSum]
      · simp [cmdAt] at c0 c2
        unfold hid_dispatch
        simp [cmdAt, c0, c2, ha, ID_DAP_Info, ID_DAP_Connect, semSum]
        omega
    · by_cases hv : dap_lock_verify_operation DAP_LOCK_OPERATION_HID_DEBUG
          s1.dapLock = true
      · simp [cmdAt] at c0 c2
        unfold hid_dispatch
        simp [cmdAt, c0, c2, hv]
      · simp [cmdAt] at c0 c2
        unfold hid_dispatch
        simp [cmdAt, c0, c2, hv]


/-- The idle/notify block never touches the flow-control counters. -/
theorem hid_idle_notify_semSum (s : HidState) :
    semSum (hid_idle_notify s).1 = semSum s := by
  unfold hid_idle_notify
  split <;> rfl

/-- The run block adds exactly one ready-to-send credit when it runs. -/
theorem hid_run_command_semSum (COUNT : Nat) (exec : Packet → Packet)
    (run : Bool) (s2 : HidState) :
    semSum (hid_run_command COUNT exec run s2) =
      (if run then semSum s2 + 1 else semSum s2) := by
  unfold hid_run_command
  cases run
  · simp
  · simp only [if_pos trivial]
    split <;> simp [semSum] <;> omega

/-- Any worker step other than the silent discard — Info, Connect in
either outcome, or a verified default command — preserves the counter
sum. -/
theorem step_semSum_run (COUNT : Nat) (exec : Packet → Packet)
    (s : HidState) (hp : 0 < s.procSem)
    (hrun : cmdAt s = ID_DAP_Info ∨ cmdAt s = ID_DAP_Connect ∨
      dap_lock_verify_operation DAP_LOCK_OPERATION_HID_DEBUG s.dapLock
        = true) :
    semSum (hid_process_step COUNT exec s).state = semSum s := by
  unfold hid_process_step
  rw [if_neg (Nat.pos_iff_ne_zero.mp hp)]
  simp only [hid_idle_notify_semSum, hid_run_command_semSum,
    hid_dispatch_semSum]
  have hcmd : cmdAt { s with procSem := s.procSem - 1 } = cmdAt s := rfl
  have h1 : semSum { s with procSem := s.procSem - 1 } + 1 = semSum s := by
    simp only [semSum]
    omega
  by_cases hr : (hid_dispatch COUNT { s with procSem := s.procSem - 1 }).1
      = true
  · simp [hr, h1]
  · simp only [Bool.not_eq_true] at hr
    have hfalse := (hid_dispatch_false_iff COUNT
      { s with procSem := s.procSem - 1 }).mp hr
    rcases hrun with h | h | h
    · exact absurd h hfalse.1
    · simp [hr, hcmd, h, h1]
    · rcases hfalse.2 with ⟨hc, hacq⟩ | ⟨hc, hv⟩
      · rw [dap_lock_operation_of_verify _ _ h] at hacq
        exact absurd hacq (by decide)
      · rw [h] at hv
        exact absurd hv (by decide)


/-- C3 amended: every operation of the system preserves
free + ready-to-process + ready-to-send, except the silent-discard branch
of the dispatcher, which consumes the ready-to-process credit with no
compensation and decreases the sum by exactly one. -/
theorem C3_semSum_accounting (COUNT : Nat) (rtype : ReportType)
    (req : HidReq) (buf : Packet) (len : Nat) (exec : Packet → Packet)
    (s : HidState) :
    semSum (usbd_hid_set_report COUNT rtype buf len s).state = semSum s ∧
    semSum (usbd_hid_get_report COUNT rtype req s).state = semSum s ∧
    semSum (hid_send_packet COUNT s).state = semSum s ∧
    (s.procSem = 0 →
      semSum (hid_process_step COUNT exec s).state = semSum s) ∧
    (0 < s.procSem →
      (cmdAt s = ID_DAP_Info ∨ cmdAt s = ID_DAP_Connect ∨
        dap_lock_verify_operation DAP_LOCK_OPERATION_HID_DEBUG s.dapLock
          = true) →
      semSum (hid_process_step COUNT exec s).state = semSum s) ∧
    (0 < s.procSem → cmdAt s ≠ ID_DAP_Info → cmdAt s ≠ ID_DAP_Connect →
      dap_lock_verify_operation DAP_LOCK_OPERATION_HID_DEBUG s.dapLock
        = false →
      semSum (hid_process_step COUNT exec s).state + 1 = semSum s) := by
  refine ⟨?_, ?_, ?_, ?_, ?_, ?_⟩
  · cases rtype
    · rfl
    · unfold usbd_hid_set_report
      split_ifs <;> simp [semSum] <;> omega
    · rfl
  · cases rtype <;> cases req <;> unfold usbd_hid_get_report <;>
      first
        | rfl
        | (split_ifs <;> simp [semSum] <;> omega)
  · unfold hid_send_packet
    split_ifs <;> simp [semSum] <;> omega
  · intro h
    unfold hid_process_step
    rw [if_pos h]
  · intro hp hrun
    exact step_semSum_run COUNT exec s hp hrun
  · intro hp h0 h2 hv
    rw [discard_step_eq COUNT exec s hv h0 h2 hp]
    simp only [semSum]
    omega

/-- Witness for the amended C3: a successful enqueue preserves the sum,
and the discard step on the concrete state strictly loses one credit. -/
theorem C3_semSum_accounting_witness :
    semSum (usbd_hid_set_report 2 .output [1, 1] 2 egDiscard).state
      = semSum egDiscard ∧
    semSum (hid_process_step 2 id egDiscard).state + 1 = semSum egDiscard :=
  ⟨(C3_semSum_accounting 2 .output .epInt [1, 1] 2 id egDiscard).1,
   (C3_semSum_accounting 2 .output .epInt [1, 1] 2 id
      egDiscard).2.2.2.2.2 (by decide) (by decide) (by decide) (by decide)⟩


end DAPLink
